import Mathlib

/-!
Verification of the panthor-update-notification core (src/main.go):
a shallow embedding of the version-check-and-notify cycle, the startup
seeding block, the version store and the webhook delivery helper, with
theorems settling the spec claims.

External effects (HTTP requests, file I/O, the yaml and json libraries)
are modelled by oracle inputs: each cycle receives the outcome that the
outside world would produce, and the embedded code reacts to it exactly
as the Go source does.  `log.Fatalln` terminates the process via
`os.Exit(1)`; a reached `log.Fatalln` is recorded in the `exited` flag
of the result, with no further statement of the cycle executing.
-/

namespace Panthor

/-- Changelog mirrors the Go struct `Changelog` (src/main.go lines 35-48):
one published release record as decoded from the remote JSON. -/
structure Changelog where
  id : Int
  version : String
  changeMission : List String
  changeMap : List String
  changeMod : List String
  note : String
  active : Int
  size : String
  reallifeRpg : Int
  releaseAt : String
  createdAt : String
  updatedAt : String
  deriving Repr, DecidableEq

/-- ChangelogResponse mirrors the Go struct `ChangelogResponse`
(src/main.go lines 30-33). -/
structure ChangelogResponse where
  data : List Changelog
  requestedAt : Int
  deriving Repr, DecidableEq

/-- Version mirrors the Go struct `Version` (src/main.go lines 26-28):
the single persisted fact, the last announced version string. -/
structure Version where
  version : String
  deriving Repr, DecidableEq

/-- Config mirrors the Go struct `Config` (src/main.go lines 16-24),
flattened: schedule expression, run-once-at-startup flag, webhook URLs. -/
structure Config where
  interval : String
  loadOnStartup : Bool
  webhooks : List String
  deriving Repr, DecidableEq

/-- Contents of the `version.yml` file when it exists: either a record
that yaml-parses into `Version`, or bytes that fail to parse. -/
inductive FileContent where
  | valid (v : Version)
  | corrupt
  deriving Repr, DecidableEq

/-- State of the `version.yml` file; `none` means the file does not exist. -/
abbrev FileState := Option FileContent

/-- DoesFileExist models the Go helper of the same name (src/main.go
lines 177-180): true exactly when `version.yml` is present. -/
def DoesFileExist (fs : FileState) : Bool :=
  fs.isSome

/-- Errors of `GetSavedVerison` (the Go function keeps this spelling):
reading `version.yml` can fail at the file layer or at the yaml layer. -/
inductive StoreError where
  | readError
  | parseError
  deriving Repr, DecidableEq

/-- GetSavedVerison models the Go function of the same name (src/main.go
lines 209-223).  `readFails` is the oracle for an `os.ReadFile` I/O error
on an existing file; a missing file is also an `os.ReadFile` error. -/
def GetSavedVerison (readFails : Bool) (fs : FileState) : Except StoreError Version :=
  if readFails then .error .readError
  else
    match fs with
    | none => .error .readError
    | some .corrupt => .error .parseError
    | some (.valid v) => .ok v

/-- Errors of `SaveVersion`: yaml marshalling or the `os.WriteFile` call. -/
inductive SaveError where
  | marshalError
  | writeError
  deriving Repr, DecidableEq

/-- SaveVersion models the Go function of the same name (src/main.go
lines 235-246): it overwrites `version.yml` with a record holding exactly
the given version string.  `marshalFails` and `writeFails` are the oracles
for the yaml library and the `os.WriteFile` call; on success the new file
state is the parseable record.  The yaml round trip of the external
library is modelled as exact: the record written is the record stored. -/
def SaveVersion (marshalFails writeFails : Bool) (version : String) :
    Except SaveError FileState :=
  if marshalFails then .error .marshalError
  else if writeFails then .error .writeError
  else .ok (some (.valid ⟨version⟩))

/-- Outcome of one `http.Get`/`http.Post` call as seen by the caller:
a transport failure flag and, when the transport succeeded, a status code. -/
structure HttpResult where
  failed : Bool
  statusCode : Nat
  deriving Repr, DecidableEq

/-- Errors of `GetChangelogs` (src/main.go lines 186-205). -/
inductive FetchError where
  | requestError
  | badStatus (code : Nat)
  | decodeError
  deriving Repr, DecidableEq

/-- Response side of one fetch: the HTTP outcome and, when the body was
retrieved, the decoded `ChangelogResponse` (`none` = JSON decode error). -/
structure FetchOutcome where
  http : HttpResult
  decoded : Option ChangelogResponse
  deriving Repr, DecidableEq

/-- GetChangelogs models the Go function of the same name (src/main.go
lines 186-205): transport error, then non-200 status, then decode error,
else the `data` list of the response. -/
def GetChangelogs (resp : FetchOutcome) : Except FetchError (List Changelog) :=
  if resp.http.failed then .error .requestError
  else if resp.http.statusCode ≠ 200 then .error (.badStatus resp.http.statusCode)
  else
    match resp.decoded with
    | none => .error .decodeError
    | some parsed => .ok parsed.data

/-- TriggerWebhook models the Go function of the same name (src/main.go
lines 142-154): error on transport failure, error on any status other
than 200, success otherwise. -/
def TriggerWebhook (resp : HttpResult) : Except String Unit :=
  if resp.failed then .error "error making POST request"
  else if resp.statusCode ≠ 200 then
    .error ("unexpected status code: " ++ toString resp.statusCode)
  else .ok ()

/-- One value of the `map\x7bstring\x7dinterface\x7b\x7d` payload literal:
the code only ever stores plain strings, but Go's `json.Marshal` can in
general receive values of kinds it cannot encode, kept representable here
so that the marshal-error branch of the loop is a real branch. -/
inductive Jfield where
  | str (s : String)
  | unsupported
  deriving Repr, DecidableEq

/-- True exactly on values Go's `json.Marshal` rejects. -/
def Jfield.isUnsupported : Jfield → Bool
  | .unsupported => true
  | .str _ => false

/-- A JSON object as a key/value list.  Go's `json.Marshal` emits map keys
in sorted order; objects built below list their keys already sorted. -/
abbrev Jobject := List (String × Jfield)

/-- jsonMarshal models Go's `json.Marshal` on a flat string-keyed map, at
the document level rather than the byte level: it fails exactly when some
value is of an unsupported kind, and otherwise yields the object whose
rendering would be sent on the wire. -/
def jsonMarshal (obj : Jobject) : Option Jobject :=
  if obj.any (fun kv => kv.2.isUnsupported) then none else some obj

/-- Field lookup in a JSON object. -/
def lookupField (key : String) : Jobject → Option Jfield
  | [] => none
  | (k, v) :: rest => if k = key then some v else lookupField key rest

/-- FormatBool models Go's `strconv.FormatBool`. -/
def FormatBool (b : Bool) : String :=
  if b then "true" else "false"

/-- buildPayload is the payload map literal of the notification loop
(src/main.go lines 113-119), keys listed in the sorted order in which
`json.Marshal` emits them.  `fmt.Sprintf` with one `%s` verb is string
concatenation. -/
def buildPayload (changelog : Changelog) : Jobject :=
  [("content", .str ("New version " ++ changelog.version ++ " is available!")),
   ("hasModUpdate", .str (FormatBool (changelog.changeMod.length > 0))),
   ("releaseAt", .str changelog.releaseAt),
   ("size", .str changelog.size),
   ("version", .str changelog.version)]

/-- One delivery attempt: the webhook URL, the payload handed to
`TriggerWebhook`, and whether that call succeeded. -/
structure Attempt where
  webhook : String
  payload : Jobject
  delivered : Bool
  deriving Repr, DecidableEq

/-- notifyLoop is the `for _, webhook := range config.Notification.Webhooks`
loop (src/main.go lines 112-130): marshal the payload (on error, `continue`
to the next webhook with no attempt), call `TriggerWebhook` (its error is
logged and the loop continues), recording every attempt made.  `post`
gives each webhook's HTTP outcome. -/
def notifyLoop (post : String → HttpResult) (changelog : Changelog) :
    List String → List Attempt
  | [] => []
  | webhook :: rest =>
    match jsonMarshal (buildPayload changelog) with
    | none => notifyLoop post changelog rest
    | some requestBody =>
      match TriggerWebhook (post webhook) with
      | .error _ => ⟨webhook, requestBody, false⟩ :: notifyLoop post changelog rest
      | .ok _ => ⟨webhook, requestBody, true⟩ :: notifyLoop post changelog rest

/-- Oracle inputs of one scheduled cycle: the fetch outcome, the
version-store I/O outcomes, and each webhook's POST outcome. -/
structure CycleEnv where
  fetch : FetchOutcome
  readFails : Bool
  marshalFails : Bool
  writeFails : Bool
  post : String → HttpResult

/-- Observable result of one scheduled cycle: the `version.yml` state
afterwards, the delivery attempts made, and whether `log.Fatalln`
(which calls `os.Exit(1)`) was reached, terminating the process. -/
structure CycleResult where
  fileState : FileState
  attempts : List Attempt
  exited : Bool
  deriving Repr

/-- runCycle is the cron callback (src/main.go lines 79-131): fetch the
changelogs (`log.Fatalln` on error or empty list), load the saved version
(`log.Fatalln` on error), return silently when the versions are equal,
otherwise save the new version (`log.Fatalln` on error) and run the
notification loop. -/
def runCycle (config : Config) (env : CycleEnv) (fs : FileState) : CycleResult :=
  match GetChangelogs env.fetch with
  | .error _ => ⟨fs, [], true⟩
  | .ok changelogs =>
    match changelogs with
    | [] => ⟨fs, [], true⟩
    | changelog :: _ =>
      match GetSavedVerison env.readFails fs with
      | .error _ => ⟨fs, [], true⟩
      | .ok savedVersion =>
        if changelog.version = savedVersion.version then ⟨fs, [], false⟩
        else
          match SaveVersion env.marshalFails env.writeFails changelog.version with
          | .error _ => ⟨fs, [], true⟩
          | .ok fs' => ⟨fs', notifyLoop env.post changelog config.webhooks, false⟩

/-- Outcome of one webhook call as a Boolean: whether `TriggerWebhook`
returned nil. -/
def deliveryOutcome (resp : HttpResult) : Bool :=
  match TriggerWebhook resp with
  | .ok _ => true
  | .error _ => false

/-- Oracle inputs of the startup block: fetch outcome and save outcomes. -/
structure StartupEnv where
  fetch : FetchOutcome
  marshalFails : Bool
  writeFails : Bool

/-- startupRun is the seeding block of `main` (src/main.go lines 57-76):
when `load_on_startup` is set or `version.yml` does not exist, fetch the
changelogs (`log.Fatalln` on error or empty list) and save the first
entry's version (`log.Fatalln` on error).  The block contains no
notification code, so `attempts` is empty on every path. -/
def startupRun (config : Config) (env : StartupEnv) (fs : FileState) : CycleResult :=
  if config.loadOnStartup || !(DoesFileExist fs) then
    match GetChangelogs env.fetch with
    | .error _ => ⟨fs, [], true⟩
    | .ok changelogs =>
      match changelogs with
      | [] => ⟨fs, [], true⟩
      | changelog :: _ =>
        match SaveVersion env.marshalFails env.writeFails changelog.version with
        | .error _ => ⟨fs, [], true⟩
        | .ok fs' => ⟨fs', [], false⟩
  else ⟨fs, [], false⟩

/-- A concrete changelog entry, patterned on the README example. -/
def sampleChangelog : Changelog :=
  ⟨1, "2.0.5.2", [], [], ["mod.pbo"], "", 1, "", 1,
   "2024-05-23 00:00:00", "2024-05-22 12:00:00", "2024-05-23 12:00:00"⟩

/-- A concrete successful fetch returning exactly `sampleChangelog`. -/
def sampleFetch : FetchOutcome :=
  ⟨⟨false, 200⟩, some ⟨[sampleChangelog], 0⟩⟩

/-- A concrete configuration with one webhook. -/
def sampleConfig : Config :=
  ⟨"1 * * * *", true, ["https://hooks.example/a"]⟩

/-- A concrete cycle environment in which everything succeeds. -/
def sampleEnvOk : CycleEnv :=
  ⟨sampleFetch, false, false, false, fun _ => ⟨false, 200⟩⟩

/-- A concrete configuration with the three webhooks A, B, C. -/
def sampleThreeConfig : Config :=
  ⟨"1 * * * *", false,
   ["https://hooks.example/a", "https://hooks.example/b", "https://hooks.example/c"]⟩

/-- POST outcomes in which only webhook B suffers a transport failure. -/
def samplePostBFails : String → HttpResult :=
  fun w => if w = "https://hooks.example/b" then ⟨true, 0⟩ else ⟨false, 200⟩

/-- A concrete cycle environment in which only delivery to B fails. -/
def sampleEnvBFails : CycleEnv :=
  ⟨sampleFetch, false, false, false, samplePostBFails⟩

/-- A concrete cycle environment whose fetch suffers a transport error. -/
def sampleEnvFetchErr : CycleEnv :=
  ⟨⟨⟨true, 0⟩, none⟩, false, false, false, fun _ => ⟨false, 200⟩⟩

/-- A concrete cycle environment whose `os.WriteFile` call fails. -/
def sampleEnvWriteErr : CycleEnv :=
  ⟨sampleFetch, false, false, true, fun _ => ⟨false, 200⟩⟩

/-- A concrete startup environment in which everything succeeds. -/
def sampleStartupEnv : StartupEnv :=
  ⟨sampleFetch, false, false⟩

/-- The notification loop never skips or reorders a webhook: it attempts
each configured webhook once, in order, with the payload built from the
triggering entry, recording each call's outcome. -/
theorem notifyLoop_eq_map (post : String → HttpResult) (changelog : Changelog)
    (webhooks : List String) :
    notifyLoop post changelog webhooks =
      webhooks.map (fun w => ⟨w, buildPayload changelog, deliveryOutcome (post w)⟩) := by
  induction webhooks with
  | nil => rfl
  | cons w ws ih =>
    have hm : jsonMarshal (buildPayload changelog) = some (buildPayload changelog) := rfl
    simp only [notifyLoop, hm, List.map_cons]
    cases h : TriggerWebhook (post w) <;> simp [deliveryOutcome, h, ih]

/-- A successful UPDATING cycle in full: with fetch succeeding on a
non-empty list, the load succeeding, the versions differing and the save
succeeding, the result is the new file state plus the notification loop. -/
theorem runCycle_updating (config : Config) (env : CycleEnv) (v1 : String)
    (changelog : Changelog) (rest : List Changelog)
    (hfetch : GetChangelogs env.fetch = .ok (changelog :: rest))
    (hread : env.readFails = false)
    (hne : changelog.version ≠ v1)
    (hmarshal : env.marshalFails = false)
    (hwrite : env.writeFails = false) :
    runCycle config env (some (.valid ⟨v1⟩)) =
      ⟨some (.valid ⟨changelog.version⟩),
       notifyLoop env.post changelog config.webhooks, false⟩ := by
  simp [runCycle, hfetch, hread, GetSavedVerison, hne, SaveVersion, hmarshal, hwrite]

/-- C1: when the fetch succeeds with a non-empty list whose first entry has
version V2, the stored record loads as V1, and V2 differs from V1, the cycle
makes exactly one delivery attempt per configured webhook, each carrying the
payload whose version field is V2, and the store holds V2 afterwards — for
every assignment of per-webhook delivery outcomes. -/
theorem change_detection_notifies_each_webhook (config : Config) (env : CycleEnv)
    (v1 v2 : String) (changelog : Changelog) (rest : List Changelog)
    (hfetch : GetChangelogs env.fetch = .ok (changelog :: rest))
    (hv2 : changelog.version = v2)
    (hread : env.readFails = false)
    (hne : v2 ≠ v1)
    (hmarshal : env.marshalFails = false)
    (hwrite : env.writeFails = false) :
    (runCycle config env (some (.valid ⟨v1⟩))).attempts =
      config.webhooks.map
        (fun w => ⟨w, buildPayload changelog, deliveryOutcome (env.post w)⟩) ∧
    lookupField "version" (buildPayload changelog) = some (.str v2) ∧
    (runCycle config env (some (.valid ⟨v1⟩))).fileState = some (.valid ⟨v2⟩) := by
  subst hv2
  rw [runCycle_updating config env v1 changelog rest hfetch hread hne hmarshal hwrite]
  refine ⟨notifyLoop_eq_map env.post changelog config.webhooks, rfl, rfl⟩

/-- C1 witness: one webhook, stored 2.0.5.1, fetched 2.0.5.2. -/
theorem change_detection_notifies_each_webhook_witness :
    (runCycle sampleConfig sampleEnvOk (some (.valid ⟨"2.0.5.1"⟩))).attempts =
      sampleConfig.webhooks.map
        (fun w => ⟨w, buildPayload sampleChangelog, deliveryOutcome (sampleEnvOk.post w)⟩) ∧
    lookupField "version" (buildPayload sampleChangelog) = some (.str "2.0.5.2") ∧
    (runCycle sampleConfig sampleEnvOk (some (.valid ⟨"2.0.5.1"⟩))).fileState =
      some (.valid ⟨"2.0.5.2"⟩) :=
  change_detection_notifies_each_webhook sampleConfig sampleEnvOk "2.0.5.1" "2.0.5.2"
    sampleChangelog [] rfl rfl rfl (by decide) rfl rfl

/-- C2: a cycle makes a delivery attempt only when the save of the new
version has already succeeded: any attempt implies that neither the yaml
marshal nor the file write failed and that the file already holds the
fetched first entry's version; contrapositively a store write failure
yields zero attempts in that cycle. -/
theorem attempts_only_after_successful_save (config : Config) (env : CycleEnv)
    (fs : FileState)
    (h : (runCycle config env fs).attempts ≠ []) :
    env.marshalFails = false ∧ env.writeFails = false ∧
    ∃ changelog rest, GetChangelogs env.fetch = .ok (changelog :: rest) ∧
      (runCycle config env fs).fileState = some (.valid ⟨changelog.version⟩) := by
  cases hg : GetChangelogs env.fetch with
  | error e => exact absurd (by simp [runCycle, hg]) h
  | ok changelogs =>
    cases changelogs with
    | nil => exact absurd (by simp [runCycle, hg]) h
    | cons changelog rest =>
      cases hs : GetSavedVerison env.readFails fs with
      | error e => exact absurd (by simp [runCycle, hg, hs]) h
      | ok savedVersion =>
        by_cases heq : changelog.version = savedVersion.version
        · exact absurd (by simp [runCycle, hg, hs, heq]) h
        · by_cases hm : env.marshalFails = true
          · exact absurd (by simp [runCycle, hg, hs, heq, SaveVersion, hm]) h
          · rw [Bool.not_eq_true] at hm
            by_cases hw : env.writeFails = true
            · exact absurd (by simp [runCycle, hg, hs, heq, SaveVersion, hm, hw]) h
            · rw [Bool.not_eq_true] at hw
              have hcyc : runCycle config env fs =
                  ⟨some (.valid ⟨changelog.version⟩),
                   notifyLoop env.post changelog config.webhooks, false⟩ := by
                simp [runCycle, hg, hs, heq, SaveVersion, hm, hw]
              exact ⟨hm, hw, changelog, rest, rfl, by rw [hcyc]⟩

/-- C2 witness: in the all-success environment an attempt is made, and the
store already holds the new version. -/
theorem attempts_only_after_successful_save_witness :
    sampleEnvOk.marshalFails = false ∧ sampleEnvOk.writeFails = false ∧
    ∃ changelog rest, GetChangelogs sampleEnvOk.fetch = .ok (changelog :: rest) ∧
      (runCycle sampleConfig sampleEnvOk (some (.valid ⟨"2.0.5.1"⟩))).fileState =
        some (.valid ⟨changelog.version⟩) :=
  attempts_only_after_successful_save sampleConfig sampleEnvOk
    (some (.valid ⟨"2.0.5.1"⟩)) (by decide)

/-- C3: the code contradicts the claim: on a fetch transport error the cron
callback calls log.Fatalln, which exits the whole process, and likewise on a
save failure; the process does not survive to the next tick.  Both
evaluations below show the exit flag raised. -/
theorem cycle_error_terminates_process :
    (runCycle sampleConfig sampleEnvFetchErr (some (.valid ⟨"2.0.5.1"⟩))).exited = true ∧
    (runCycle sampleConfig sampleEnvWriteErr (some (.valid ⟨"2.0.5.1"⟩))).exited = true :=
  ⟨rfl, rfl⟩

/-- C4: a run that starts with no stored record (file absent) and fetches a
non-empty list persists the first entry's version and makes zero delivery
attempts: the startup block contains no notification code. -/
theorem seeding_persists_without_attempts (config : Config) (env : StartupEnv)
    (changelog : Changelog) (rest : List Changelog)
    (hfetch : GetChangelogs env.fetch = .ok (changelog :: rest))
    (hmarshal : env.marshalFails = false)
    (hwrite : env.writeFails = false) :
    (startupRun config env none).fileState = some (.valid ⟨changelog.version⟩) ∧
    (startupRun config env none).attempts = [] := by
  simp [startupRun, DoesFileExist, hfetch, SaveVersion, hmarshal, hwrite]

/-- C4 witness: seeding from an absent file stores 2.0.5.2, no attempts. -/
theorem seeding_persists_without_attempts_witness :
    (startupRun sampleConfig sampleStartupEnv none).fileState =
      some (.valid ⟨"2.0.5.2"⟩) ∧
    (startupRun sampleConfig sampleStartupEnv none).attempts = [] :=
  seeding_persists_without_attempts sampleConfig sampleStartupEnv
    sampleChangelog [] rfl rfl rfl

/-- C5: with webhooks [A, B, C] and delivery to B failing, an UPDATING cycle
still attempts all three webhooks in order and the store still holds the new
version afterwards. -/
theorem partial_failure_isolation (config : Config) (env : CycleEnv)
    (a b c v1 : String) (changelog : Changelog) (rest : List Changelog)
    (hwebhooks : config.webhooks = [a, b, c])
    (hfetch : GetChangelogs env.fetch = .ok (changelog :: rest))
    (hread : env.readFails = false)
    (hne : changelog.version ≠ v1)
    (hmarshal : env.marshalFails = false)
    (hwrite : env.writeFails = false)
    (hbfail : ∃ e, TriggerWebhook (env.post b) = .error e) :
    (runCycle config env (some (.valid ⟨v1⟩))).attempts.map
        (fun att => (att.webhook, att.delivered)) =
      [(a, deliveryOutcome (env.post a)), (b, false), (c, deliveryOutcome (env.post c))] ∧
    (runCycle config env (some (.valid ⟨v1⟩))).fileState =
      some (.valid ⟨changelog.version⟩) := by
  rw [runCycle_updating config env v1 changelog rest hfetch hread hne hmarshal hwrite]
  refine ⟨?_, rfl⟩
  rw [notifyLoop_eq_map env.post changelog config.webhooks, hwebhooks]
  obtain ⟨e, he⟩ := hbfail
  simp [deliveryOutcome, he]

/-- C5 witness: three webhooks, POST to B fails in transport, A and C are
still attempted and the store holds the new version. -/
theorem partial_failure_isolation_witness :
    (runCycle sampleThreeConfig sampleEnvBFails (some (.valid ⟨"2.0.5.1"⟩))).attempts.map
        (fun att => (att.webhook, att.delivered)) =
      [("https://hooks.example/a", deliveryOutcome (sampleEnvBFails.post "https://hooks.example/a")),
       ("https://hooks.example/b", false),
       ("https://hooks.example/c", deliveryOutcome (sampleEnvBFails.post "https://hooks.example/c"))] ∧
    (runCycle sampleThreeConfig sampleEnvBFails (some (.valid ⟨"2.0.5.1"⟩))).fileState =
      some (.valid ⟨"2.0.5.2"⟩) :=
  partial_failure_isolation sampleThreeConfig sampleEnvBFails
    "https://hooks.example/a" "https://hooks.example/b" "https://hooks.example/c"
    "2.0.5.1" sampleChangelog [] rfl rfl rfl (by decide) rfl rfl
    ⟨"error making POST request", rfl⟩

/-- C6: when the fetch fails (transport error, bad status, or decode error)
or returns an empty list, the cycle leaves the file untouched and makes zero
delivery attempts. -/
theorem fetch_failure_no_mutation (config : Config) (env : CycleEnv) (fs : FileState)
    (h : (∃ e, GetChangelogs env.fetch = .error e) ∨ GetChangelogs env.fetch = .ok []) :
    (runCycle config env fs).fileState = fs ∧ (runCycle config env fs).attempts = [] := by
  obtain ⟨e, he⟩ | he := h <;> simp [runCycle, he]

/-- C6 witness: a fetch transport error leaves the file and sends nothing. -/
theorem fetch_failure_no_mutation_witness :
    (runCycle sampleConfig sampleEnvFetchErr (some (.valid ⟨"2.0.5.1"⟩))).fileState =
      some (.valid ⟨"2.0.5.1"⟩) ∧
    (runCycle sampleConfig sampleEnvFetchErr (some (.valid ⟨"2.0.5.1"⟩))).attempts = [] :=
  fetch_failure_no_mutation sampleConfig sampleEnvFetchErr (some (.valid ⟨"2.0.5.1"⟩))
    (Or.inl ⟨.requestError, rfl⟩)

/-- C7: after an UPDATING cycle persists a version, a second cycle whose
fetched first entry still has that version makes zero delivery attempts and
leaves the file state unchanged. -/
theorem unchanged_second_cycle (config : Config) (env1 env2 : CycleEnv)
    (v1 : String) (c1 c2 : Changelog) (r1 r2 : List Changelog)
    (hfetch1 : GetChangelogs env1.fetch = .ok (c1 :: r1))
    (hread1 : env1.readFails = false)
    (hne : c1.version ≠ v1)
    (hmarshal1 : env1.marshalFails = false)
    (hwrite1 : env1.writeFails = false)
    (hfetch2 : GetChangelogs env2.fetch = .ok (c2 :: r2))
    (hv : c2.version = c1.version)
    (hread2 : env2.readFails = false) :
    (runCycle config env2 (runCycle config env1 (some (.valid ⟨v1⟩))).fileState).attempts
      = [] ∧
    (runCycle config env2 (runCycle config env1 (some (.valid ⟨v1⟩))).fileState).fileState
      = (runCycle config env1 (some (.valid ⟨v1⟩))).fileState := by
  rw [runCycle_updating config env1 v1 c1 r1 hfetch1 hread1 hne hmarshal1 hwrite1]
  simp [runCycle, hfetch2, hread2, GetSavedVerison, hv]

/-- C7 witness: two identical successful fetches of 2.0.5.2 starting from a
stored 2.0.5.1: the second cycle is silent and writes nothing. -/
theorem unchanged_second_cycle_witness :
    (runCycle sampleConfig sampleEnvOk
        (runCycle sampleConfig sampleEnvOk (some (.valid ⟨"2.0.5.1"⟩))).fileState).attempts
      = [] ∧
    (runCycle sampleConfig sampleEnvOk
        (runCycle sampleConfig sampleEnvOk (some (.valid ⟨"2.0.5.1"⟩))).fileState).fileState
      = (runCycle sampleConfig sampleEnvOk (some (.valid ⟨"2.0.5.1"⟩))).fileState :=
  unchanged_second_cycle sampleConfig sampleEnvOk sampleEnvOk "2.0.5.1"
    sampleChangelog sampleChangelog [] [] rfl rfl (by decide) rfl rfl rfl rfl rfl

/-- C8: the payload's hasModUpdate field is the string true exactly when the
entry's mod-change list is non-empty, and the string false exactly when it
is empty. -/
theorem hasModUpdate_encodes_modChanges (changelog : Changelog) :
    (lookupField "hasModUpdate" (buildPayload changelog) = some (.str "true") ↔
      changelog.changeMod ≠ []) ∧
    (lookupField "hasModUpdate" (buildPayload changelog) = some (.str "false") ↔
      changelog.changeMod = []) := by
  have hlk : lookupField "hasModUpdate" (buildPayload changelog) =
      some (.str (FormatBool (changelog.changeMod.length > 0))) := rfl
  rw [hlk]
  cases h : changelog.changeMod with
  | nil => simp [FormatBool]
  | cons x xs => simp [FormatBool]

/-- C9: saving a version string and then loading returns a record holding
exactly that string. -/
theorem save_load_roundtrip (version : String) (fs : FileState)
    (h : SaveVersion false false version = .ok fs) :
    GetSavedVerison false fs = .ok ⟨version⟩ := by
  simp only [SaveVersion, if_false, Bool.false_eq_true, Except.ok.injEq] at h
  subst h
  rfl

/-- C9 witness: round trip of the string 2.0.5.2. -/
theorem save_load_roundtrip_witness :
    GetSavedVerison false (some (.valid ⟨"2.0.5.2"⟩)) = .ok ⟨"2.0.5.2"⟩ :=
  save_load_roundtrip "2.0.5.2" (some (.valid ⟨"2.0.5.2"⟩)) rfl

/-- C10: the marshal-error branch of the notification loop is unreachable:
the payload built from any entry holds only plain strings, so the modelled
json.Marshal always succeeds, and the loop makes exactly one attempt per
configured webhook, none skipped. -/
theorem marshal_branch_unreachable (changelog : Changelog)
    (post : String → HttpResult) (webhooks : List String) :
    jsonMarshal (buildPayload changelog) = some (buildPayload changelog) ∧
    (notifyLoop post changelog webhooks).length = webhooks.length := by
  refine ⟨rfl, ?_⟩
  rw [notifyLoop_eq_map post changelog webhooks]
  exact List.length_map webhooks _

end Panthor
